import Mathlib

/-!
Shallow embedding of the downloader-bot repository (main.py,
downloaders/tiktok.py, downloaders/youtube.py, downloaders/soundcloud.py).

Python strings are modelled as Lean `String`, with all operations carried
out on the underlying `List Char` so that every definition is executable
and kernel-reducible.  External collaborators (the yt-dlp extraction
engine, the filesystem, the HTTP client, the mutagen tag writer, the
Telegram messaging API) are passed in as explicit oracle parameters; the
Python code's interaction with them is translated branch for branch.
-/

namespace DownloaderBot

/-! ### String primitives (Python `in`, `startswith`, `endswith`, `lower`, `strip`) -/

/-- Python substring test `needle in hay`, on character lists. -/
def substrB (needle : List Char) : List Char → Bool
  | [] => needle.isEmpty
  | c :: t => needle.isPrefixOf (c :: t) || substrB needle t

/-- Python `needle in hay` on strings (case-sensitive substring containment). -/
def strContains (needle hay : String) : Bool :=
  substrB needle.data hay.data

/-- Python `s.startswith(pre)`. -/
def strStarts (pre s : String) : Bool :=
  pre.data.isPrefixOf s.data

/-- Python `s.endswith(suf)`. -/
def strEnds (suf s : String) : Bool :=
  suf.data.isSuffixOf s.data

/-- Python `s.lower()` (ASCII case folding, which covers every string the
program compares against). -/
def strLower (s : String) : String :=
  String.mk (s.data.map Char.toLower)

/-- Python `s.strip()` (leading and trailing whitespace removed). -/
def strStrip (s : String) : String :=
  String.mk (((s.data.dropWhile Char.isWhitespace).reverse.dropWhile
      Char.isWhitespace).reverse)

/-! ### Path primitives (`os.path.basename`, `os.path.splitext`, `os.path.join`) -/

/-- POSIX `os.path.basename`: the part after the last slash. -/
def basename (p : String) : String :=
  String.mk ((p.data.reverse.takeWhile (fun c => c != '/')).reverse)

/-- Index of the last occurrence of a character in a list. -/
def lastIdx (c : Char) (l : List Char) : Option Nat :=
  match l.reverse.findIdx? (fun x => x == c) with
  | some k => some (l.length - 1 - k)
  | none => none

/-- POSIX `os.path.splitext(p)[1]`: the extension including the dot,
empty when the last dot belongs to a leading dot-run of the basename or
precedes the last separator (CPython's `genericpath._splitext`). -/
def splitext_ext (p : String) : String :=
  match lastIdx '.' p.data with
  | none => ""
  | some d =>
      let s := match lastIdx '/' p.data with
               | some i => i + 1
               | none => 0
      if s ≤ d && ((p.data.drop s).take (d - s)).any (fun ch => ch != '.') then
        String.mk (p.data.drop d)
      else ""

/-- POSIX `os.path.join` for two components. -/
def pathJoin (a b : String) : String :=
  if strStarts "/" b then b
  else if a = "" || strEnds "/" a then a ++ b
  else a ++ "/" ++ b

/-! ### Platform detection (main.py `choose_downloader`, lines 86-105) -/

/-- The three supported platforms; `Option Platform` with `none` models the
`ValueError("Unsupported source: ...")` branch. -/
inductive Platform where
  | tiktok
  | youtube
  | soundcloud
  deriving DecidableEq, Repr

/-- Platform routing of `choose_downloader` (main.py lines 90-105): plain
Python substring tests over the whole URL string, first match wins.  This is
the pure detection step; the surrounding progress messages and the adapter
invocation are modelled in `handle_link`. -/
def choose_downloader (url : String) : Option Platform :=
  if strContains "tiktok.com" url || strContains "vm.tiktok.com" url then
    some Platform.tiktok
  else if strContains "youtube.com" url || strContains "youtu.be" url then
    some Platform.youtube
  else if strContains "soundcloud.com" url then
    some Platform.soundcloud
  else
    none

/-- `is_soundcloud_url` (soundcloud.py lines 296-310): `re.match` with
`re.IGNORECASE` against the three anchored patterns, i.e. a case-insensitive
check that the URL starts with one of the six scheme/host combinations. -/
def is_soundcloud_url (url : String) : Bool :=
  let u := strLower url
  strStarts "http://soundcloud.com/" u || strStarts "https://soundcloud.com/" u ||
  strStarts "http://on.soundcloud.com/" u || strStarts "https://on.soundcloud.com/" u ||
  strStarts "http://m.soundcloud.com/" u || strStarts "https://m.soundcloud.com/" u

/-! ### Orchestrator (main.py `handle_link`, lines 259-337) -/

/-- Size ceiling `MAX_SIZE = 49 * 1024 * 1024` (main.py line 303). -/
def MAX_SIZE : Nat := 49 * 1024 * 1024

/-- The relay step's recognized audio extensions (main.py line 314): the
lowercased extension is compared against exactly `.mp3`. -/
def recognizedAudioExt (ext : String) : Bool :=
  ext == ".mp3"

/-- Terminal states of one `handle_link` invocation. -/
inductive Terminal where
  | done
  | failedValidation
  | failedDownload
  | failedNotFound
  | failedOversize
  | failedSend
  deriving DecidableEq, Repr

/-- Observable bot interactions of one `handle_link` invocation, in order. -/
inductive BotAction where
  | validationReply
  | progress (text : String)
  | deleteProgress
  | sendAudio (path : String)
  | sendVideo (path : String)
  | sendSuccess (platform : Platform) (filename : String)
  deriving DecidableEq, Repr

/-- Actions belonging to the relay step (progress-message deletion, the
upload itself, the success confirmation). -/
def isRelayStep : BotAction → Bool
  | BotAction.deleteProgress => true
  | BotAction.sendAudio _ => true
  | BotAction.sendVideo _ => true
  | BotAction.sendSuccess _ _ => true
  | _ => false

/-- Progress text chosen inside `choose_downloader` per platform
(main.py lines 91, 95, 99). -/
def platformProgressText : Platform → String
  | Platform.tiktok => "Downloading from TikTok..."
  | Platform.youtube => "Downloading from YouTube..."
  | Platform.soundcloud => "Downloading from SoundCloud..."

/-- Result of one `handle_link` invocation: the terminal state, the ordered
bot interactions, how many temporary working directories were created for
the request, and whether the request's temporary directory still exists
once the terminal state is reached. -/
structure HandleResult where
  terminal : Terminal
  actions : List BotAction
  dirsCreated : Nat
  tmpdirExists : Bool
  deriving DecidableEq, Repr

/-- `handle_link` (main.py lines 259-337).  Oracles: `adapter p` is the
outcome of the matched downloader invocation (`Except.error` models a raised
exception), `fexists`/`fsize` are `os.path.exists`/`os.path.getsize`, and
`sendFail = some (k, e)` models an exception with text `e` raised during the
relay block after `k` of its actions completed (`none`: relaying succeeds).
`with tempfile.TemporaryDirectory()` creates exactly one directory after
validation and removes it on every exit path of the block. -/
def handle_link (text : String) (adapter : Platform → Except String String)
    (fexists : String → Bool) (fsize : String → Nat)
    (sendFail : Option (Nat × String)) : HandleResult :=
  let url := strStrip text
  if !(strStarts "http://" url || strStarts "https://" url) then
    { terminal := Terminal.failedValidation, actions := [BotAction.validationReply],
      dirsCreated := 0, tmpdirExists := false }
  else
    let checking := BotAction.progress "Checking link..."
    match choose_downloader url with
    | none =>
        { terminal := Terminal.failedDownload,
          actions := [checking,
            BotAction.progress ("❌ *Error:* " ++ "Unsupported source: " ++ url)],
          dirsCreated := 1, tmpdirExists := false }
    | some p =>
        let acts0 := [checking, BotAction.progress (platformProgressText p)]
        match adapter p with
        | Except.error e =>
            { terminal := Terminal.failedDownload,
              actions := acts0 ++ [BotAction.progress ("❌ *Error:* " ++ e)],
              dirsCreated := 1, tmpdirExists := false }
        | Except.ok file_path =>
            let acts1 := acts0 ++ [BotAction.progress "Sending file..."]
            if !fexists file_path then
              { terminal := Terminal.failedNotFound,
                actions := acts1 ++ [BotAction.progress "❌ File not found"],
                dirsCreated := 1, tmpdirExists := false }
            else
              let filesize := fsize file_path
              let file_extension := strLower (splitext_ext file_path)
              let filename := basename file_path
              if filesize ≤ MAX_SIZE then
                let seq := [BotAction.deleteProgress,
                            if recognizedAudioExt file_extension then
                              BotAction.sendAudio file_path
                            else
                              BotAction.sendVideo file_path,
                            BotAction.sendSuccess p filename]
                match sendFail with
                | none =>
                    { terminal := Terminal.done, actions := acts1 ++ seq,
                      dirsCreated := 1, tmpdirExists := false }
                | some (k, emsg) =>
                    { terminal := Terminal.failedSend,
                      actions := acts1 ++ seq.take k ++
                        [BotAction.progress ("❌ *Sending error:* " ++ emsg)],
                      dirsCreated := 1, tmpdirExists := false }
              else
                { terminal := Terminal.failedOversize,
                  actions := acts1 ++
                    [BotAction.progress "❌ File is too large for Telegram (maximum 50MB)"],
                  dirsCreated := 1, tmpdirExists := false }

/-! ### TikTok and YouTube adapters (tiktok.py lines 17-68, youtube.py lines 17-62) -/

/-- `download_tiktok`: runs the extraction collaborator in a worker thread and
returns `ydl.prepare_filename(video_info)` unchanged; a collaborator exception
propagates.  `os.path.exists` is consulted only for a logged byte count; no
existence check gates the returned path and no directory scan is performed. -/
def download_tiktok (extract : Except String String) : Except String String :=
  extract

/-- `download_youtube`: identical structure to `download_tiktok` — the
predicted filename from `prepare_filename` is returned without any existence
check or directory scan. -/
def download_youtube (extract : Except String String) : Except String String :=
  extract

/-! ### SoundCloud adapter (soundcloud.py) -/

/-- `get_ffmpeg_path` (soundcloud.py lines 78-111).  Oracles: `fexists` is
`os.path.exists`, `which_ffmpeg` is `shutil.which('ffmpeg')`, `os_is_nt`
selects the candidate binary names.  Note the early `return None` when the
tools directory itself does not exist (line 86-88): the system search path is
consulted only when the tools directory exists. -/
def get_ffmpeg_path (tools_path : String) (os_is_nt : Bool)
    (fexists : String → Bool) (which_ffmpeg : Option String) : Option String :=
  if !fexists tools_path then
    none
  else
    let possible_names := if os_is_nt then ["ffmpeg.exe", "ffmpeg"] else ["ffmpeg"]
    match possible_names.find? (fun name => fexists (pathJoin tools_path name)) with
    | some name => some (pathJoin tools_path name)
    | none => which_ffmpeg

/-- Media extensions accepted by the SoundCloud adapter's fallback directory
scan (soundcloud.py line 238: `file.endswith(('.mp3', '.m4a', '.webm', '.mp4'))`). -/
def mediaFile (f : String) : Bool :=
  strEnds ".mp3" f || strEnds ".m4a" f || strEnds ".webm" f || strEnds ".mp4" f

/-- First file with a known media extension in directory-listing order
(the `for file in files_in_dir` loop, soundcloud.py lines 237-242). -/
def mediaScan (files_in_dir : List String) : Option String :=
  files_in_dir.find? mediaFile

/-- Outcome of `run_yt_dlp` (soundcloud.py lines 17-75): that function never
raises; it returns either a failure record carrying `str(e)` or a success
record carrying the final filename (`prepare_filename`, switched to `.mp3`
when that exists).  The success filename is `Option` to keep the
`if not result['filename']` branch of `download_soundcloud`. -/
inductive PrimaryOutcome where
  | failed (error : String)
  | ok (filename : Option String)
  deriving DecidableEq, Repr

/-- Error wrapper of `download_soundcloud`'s outermost `except` clause
(soundcloud.py line 260). -/
def scErr (e : String) : String :=
  "Error downloading from SoundCloud: " ++ e

/-- `download_without_conversion` (soundcloud.py lines 265-293): one plain
invocation of the extraction collaborator; the oracle `outcome` is the result
of `extract_info` plus `prepare_filename`, with failures re-raised wrapped in
`"Error downloading without conversion: ..."`.  The best-effort metadata call
it performs is modelled by `add_metadata_to_mp3` separately and does not
change the returned filename. -/
def download_without_conversion (outcome : Except String String) :
    Except String String :=
  match outcome with
  | Except.ok filename => Except.ok filename
  | Except.error e => Except.error ("Error downloading without conversion: " ++ e)

/-- Result of `download_soundcloud`: the returned path or the raised error
text, plus the number of times the no-conversion fallback was entered. -/
structure SCRun where
  result : Except String String
  fallbackCalls : Nat
  deriving Repr

/-- `download_soundcloud` (soundcloud.py lines 201-262).  Oracles: `primary`
is the `run_yt_dlp` outcome, `noconv` the no-conversion extraction outcome,
`fexists` is `os.path.exists`, `files_in_dir` is `os.listdir(dest_folder)`.
Branches translated in source order: ffmpeg-mentioning failure falls back
exactly once to `download_without_conversion` (whose error is re-wrapped by
the outer `except`); other failures raise `"yt-dlp error: ..."`; a missing
predicted file triggers the media-extension directory scan, and only an
empty scan raises `"File was not created"`.  The best-effort metadata step
never alters the returned filename. -/
def download_soundcloud (primary : PrimaryOutcome) (noconv : Except String String)
    (fexists : String → Bool) (files_in_dir : List String)
    (dest_folder : String) : SCRun :=
  match primary with
  | PrimaryOutcome.failed err =>
      if strContains "ffmpeg" (strLower err) then
        match download_without_conversion noconv with
        | Except.ok f => { result := Except.ok f, fallbackCalls := 1 }
        | Except.error e => { result := Except.error (scErr e), fallbackCalls := 1 }
      else
        { result := Except.error (scErr ("yt-dlp error: " ++ err)), fallbackCalls := 0 }
  | PrimaryOutcome.ok none =>
      { result := Except.error (scErr "Filename not returned"), fallbackCalls := 0 }
  | PrimaryOutcome.ok (some fname) =>
      if fname = "" then
        { result := Except.error (scErr "Filename not returned"), fallbackCalls := 0 }
      else if fexists fname then
        { result := Except.ok fname, fallbackCalls := 0 }
      else
        match mediaScan files_in_dir with
        | some file =>
            { result := Except.ok (pathJoin dest_folder file), fallbackCalls := 0 }
        | none =>
            { result := Except.error (scErr "File was not created"), fallbackCalls := 0 }

/-! ### Metadata tagging (soundcloud.py `add_metadata_to_mp3` and `add_cover_art`) -/

/-- The metadata record fields `add_metadata_to_mp3` reads via
`track_info.get(...)`; `none` models an absent key. -/
structure TrackInfo where
  title : Option String
  uploader : Option String
  creator : Option String
  genre : Option String
  thumbnail : Option String
  deriving DecidableEq, Repr

/-- ID3 frames written by the tagger: TIT2 (title), TPE1 (artist),
TALB (album text reused for the genre), APIC (embedded cover). -/
structure Id3Tags where
  tit2 : Option String
  tpe1 : Option String
  talb : Option String
  apic : Bool
  deriving DecidableEq, Repr

/-- `add_cover_art` (soundcloud.py lines 164-188).  `fetchStatus` is the
HTTP outcome of fetching the thumbnail (`none`: network error or exception;
`some s`: response with status `s`).  The cover is embedded only on status
200; every failure is swallowed inside the function's own `except` clause.
Returns whether an APIC frame was added. -/
def add_cover_art (fetchStatus : Option Nat) : Bool :=
  match fetchStatus with
  | some 200 => true
  | _ => false

/-- `add_metadata_to_mp3` (soundcloud.py lines 114-161).  Oracles:
`file_exists` is the explicit `os.path.exists` check, `load_ok` whether an
MP3/ID3 object could be obtained (both `MP3(...)` attempts), `save_ok`
whether `audio.save()` succeeds, `fetchStatus` the cover-art fetch outcome.
Returns the Python boolean together with the frames written: title when
nonempty after strip; artist as `uploader.strip() or creator.strip()` when
that is nonempty; genre text into TALB when truthy (no strip); APIC when a
truthy thumbnail URL is present and the fetch returned 200.  Every internal
failure is caught by the outer `except`, which returns `False`. -/
def add_metadata_to_mp3 (file_exists load_ok save_ok : Bool)
    (track_info : TrackInfo) (fetchStatus : Option Nat) : Bool × Id3Tags :=
  if !file_exists then
    (false, { tit2 := none, tpe1 := none, talb := none, apic := false })
  else if !load_ok then
    (false, { tit2 := none, tpe1 := none, talb := none, apic := false })
  else
    let title := strStrip (track_info.title.getD "")
    let artist :=
      let u := strStrip (track_info.uploader.getD "")
      if u ≠ "" then u else strStrip (track_info.creator.getD "")
    let genre := track_info.genre.getD ""
    let coverAdded :=
      match track_info.thumbnail with
      | some t => if t ≠ "" then add_cover_art fetchStatus else false
      | none => false
    let tags : Id3Tags :=
      { tit2 := if title ≠ "" then some title else none,
        tpe1 := if artist ≠ "" then some artist else none,
        talb := if genre ≠ "" then some genre else none,
        apic := coverAdded }
    if save_ok then (true, tags) else (false, tags)

/-! ### Specification-side property for claim C6 -/

/-- The scan-or-fail property the specification asserts of every adapter
(spec section 4.2): when the predicted final path does not exist, the adapter
must return the first media-extension file of the destination directory, or
fail when the directory holds none.  Stated from the spec's words, to be
compared against the adapters embedded above. -/
def specScanFallback (predicted dest : String) (fexists : String → Bool)
    (files_in_dir : List String) (result : Except String String) : Prop :=
  fexists predicted = false →
    match mediaScan files_in_dir with
    | some f => result = Except.ok (pathJoin dest f)
    | none => ∃ e, result = Except.error e

/-! ### Claim C1 -/

/-- Claim C1, counterexample.  The claim asserts host-based matching with a
case-insensitive SoundCloud matcher.  The code routes by case-sensitive
substring over the whole URL: a mixed-case SoundCloud URL — which the
repository's own case-insensitive validator `is_soundcloud_url` accepts — is
routed to the unsupported-source failure instead of the Audio adapter, and a
URL whose host is example.com but whose query mentions tiktok.com is routed
to the TikTok adapter instead of Unsupported. -/
theorem c1_counterexample :
    (is_soundcloud_url "https://SoundCloud.com/artist/track" = true ∧
     choose_downloader "https://SoundCloud.com/artist/track" = none) ∧
    choose_downloader "https://example.com/watch?u=tiktok.com" = some Platform.tiktok := by
  exact ⟨⟨by decide, by decide⟩, by decide⟩

/-- Claim C1 (amended): platform selection is case-sensitive substring
containment over the entire URL string, tested in the fixed order TikTok,
YouTube, SoundCloud with the first match winning; a URL containing none of
the five substrings yields the unsupported-source failure.  The detection
step is a pure substring computation performing no network access. -/
theorem c1_amended_routing (url : String) :
    (choose_downloader url = some Platform.tiktok ↔
      (strContains "tiktok.com" url || strContains "vm.tiktok.com" url) = true)
    ∧ (choose_downloader url = some Platform.youtube ↔
      ((strContains "tiktok.com" url || strContains "vm.tiktok.com" url) = false ∧
       (strContains "youtube.com" url || strContains "youtu.be" url) = true))
    ∧ (choose_downloader url = some Platform.soundcloud ↔
      ((strContains "tiktok.com" url || strContains "vm.tiktok.com" url) = false ∧
       (strContains "youtube.com" url || strContains "youtu.be" url) = false ∧
       strContains "soundcloud.com" url = true))
    ∧ (choose_downloader url = none ↔
      ((strContains "tiktok.com" url || strContains "vm.tiktok.com" url) = false ∧
       (strContains "youtube.com" url || strContains "youtu.be" url) = false ∧
       strContains "soundcloud.com" url = false)) := by
  unfold choose_downloader
  cases h1 : (strContains "tiktok.com" url || strContains "vm.tiktok.com" url) <;>
    cases h2 : (strContains "youtube.com" url || strContains "youtu.be" url) <;>
      cases h3 : strContains "soundcloud.com" url <;>
        simp

/-! ### Claim C10 -/

/-- Claim C10: routing tests raw substring containment over the entire URL
string in the fixed order TikTok, YouTube, SoundCloud, first match winning;
in particular every string containing "tiktok.com" anywhere selects the
TikTok adapter, regardless of what else the string contains. -/
theorem c10_substring_first_match (url : String) :
    (strContains "tiktok.com" url = true →
      choose_downloader url = some Platform.tiktok)
    ∧ (strContains "tiktok.com" url = false → strContains "vm.tiktok.com" url = false →
       (strContains "youtube.com" url || strContains "youtu.be" url) = true →
      choose_downloader url = some Platform.youtube)
    ∧ (strContains "tiktok.com" url = false → strContains "vm.tiktok.com" url = false →
       strContains "youtube.com" url = false → strContains "youtu.be" url = false →
       strContains "soundcloud.com" url = true →
      choose_downloader url = some Platform.soundcloud) := by
  refine ⟨fun h => ?_, fun h1 h2 h3 => ?_, fun h1 h2 h3 h4 h5 => ?_⟩ <;>
    unfold choose_downloader <;> simp_all

/-- Claim C10, witness: a URL with host youtube.com whose query mentions
tiktok.com is routed to the TikTok adapter. -/
theorem c10_witness :
    strContains "tiktok.com" "https://youtube.com/watch?v=tiktok.com" = true ∧
    choose_downloader "https://youtube.com/watch?v=tiktok.com" = some Platform.tiktok := by
  exact ⟨by decide,
    (c10_substring_first_match "https://youtube.com/watch?v=tiktok.com").1 (by decide)⟩

/-! ### Claims C2, C3, C4 -/

/-- Shape of `handle_link` once validation, detection, the adapter call and
the existence check have succeeded: only the size branch and the send
outcome remain. -/
theorem handle_link_success_shape (text : String)
    (adapter : Platform → Except String String)
    (fexists : String → Bool) (fsize : String → Nat)
    (sendFail : Option (Nat × String)) (p : Platform) (fp : String)
    (hscheme : (strStarts "http://" (strStrip text) ||
                strStarts "https://" (strStrip text)) = true)
    (hdet : choose_downloader (strStrip text) = some p)
    (had : adapter p = Except.ok fp)
    (hex : fexists fp = true) :
    handle_link text adapter fexists fsize sendFail =
      (if fsize fp ≤ MAX_SIZE then
        match sendFail with
        | none =>
            { terminal := Terminal.done,
              actions := [BotAction.progress "Checking link...",
                          BotAction.progress (platformProgressText p),
                          BotAction.progress "Sending file...",
                          BotAction.deleteProgress,
                          if recognizedAudioExt (strLower (splitext_ext fp)) then
                            BotAction.sendAudio fp
                          else BotAction.sendVideo fp,
                          BotAction.sendSuccess p (basename fp)],
              dirsCreated := 1, tmpdirExists := false }
        | some (k, emsg) =>
            { terminal := Terminal.failedSend,
              actions := [BotAction.progress "Checking link...",
                          BotAction.progress (platformProgressText p),
                          BotAction.progress "Sending file..."] ++
                ([BotAction.deleteProgress,
                  if recognizedAudioExt (strLower (splitext_ext fp)) then
                    BotAction.sendAudio fp
                  else BotAction.sendVideo fp,
                  BotAction.sendSuccess p (basename fp)].take k) ++
                [BotAction.progress ("❌ *Sending error:* " ++ emsg)],
              dirsCreated := 1, tmpdirExists := false }
      else
        { terminal := Terminal.failedOversize,
          actions := [BotAction.progress "Checking link...",
                      BotAction.progress (platformProgressText p),
                      BotAction.progress "Sending file...",
                      BotAction.progress "❌ File is too large for Telegram (maximum 50MB)"],
          dirsCreated := 1, tmpdirExists := false }) := by
  unfold handle_link
  simp only [hscheme, hdet, had, hex, Bool.or_self, Bool.not_true,
    Bool.false_eq_true, if_false, Bool.not_false]
  rfl

/-- Claim C2: with a successfully downloaded, existing file, a size strictly
above `MAX_SIZE = 49 * 1024 * 1024` reaches the oversize failure, the
actions end with the size-specific progress text and contain no relay step
(no deletion, no upload, no success confirmation); a size at most the
threshold reaches `Done` through the relay step instead. -/
theorem c2_oversize_rejected (text : String)
    (adapter : Platform → Except String String)
    (fexists : String → Bool) (fsize : String → Nat)
    (sendFail : Option (Nat × String)) (p : Platform) (fp : String)
    (hscheme : (strStarts "http://" (strStrip text) ||
                strStarts "https://" (strStrip text)) = true)
    (hdet : choose_downloader (strStrip text) = some p)
    (had : adapter p = Except.ok fp)
    (hex : fexists fp = true) :
    (MAX_SIZE < fsize fp →
      (handle_link text adapter fexists fsize sendFail).terminal =
        Terminal.failedOversize ∧
      (handle_link text adapter fexists fsize sendFail).actions.all
        (fun a => !isRelayStep a) = true ∧
      BotAction.progress "❌ File is too large for Telegram (maximum 50MB)" ∈
        (handle_link text adapter fexists fsize sendFail).actions)
    ∧ (fsize fp ≤ MAX_SIZE → sendFail = none →
      (handle_link text adapter fexists fsize sendFail).terminal = Terminal.done ∧
      BotAction.deleteProgress ∈
        (handle_link text adapter fexists fsize sendFail).actions) := by
  rw [handle_link_success_shape text adapter fexists fsize sendFail p fp
      hscheme hdet had hex]
  constructor
  · intro hsz
    have hns : ¬ fsize fp ≤ MAX_SIZE := by omega
    simp [hns, isRelayStep]
  · intro hsz hsf
    subst hsf
    simp [hsz]

/-- Claim C2, witness: a SoundCloud request producing a file of exactly
`49*1024*1024 + 1` bytes fails oversize without any relay action, while the
same request with a file of exactly the threshold size reaches `Done`. -/
theorem c2_witness :
    ((handle_link "https://soundcloud.com/a/b" (fun _ => Except.ok "/t/song.mp3")
        (fun _ => true) (fun _ => MAX_SIZE + 1) none).terminal =
      Terminal.failedOversize ∧
     (handle_link "https://soundcloud.com/a/b" (fun _ => Except.ok "/t/song.mp3")
        (fun _ => true) (fun _ => MAX_SIZE + 1) none).actions.all
        (fun a => !isRelayStep a) = true) ∧
    (handle_link "https://soundcloud.com/a/b" (fun _ => Except.ok "/t/song.mp3")
        (fun _ => true) (fun _ => MAX_SIZE) none).terminal = Terminal.done := by
  have h1 := c2_oversize_rejected "https://soundcloud.com/a/b"
    (fun _ => Except.ok "/t/song.mp3") (fun _ => true) (fun _ => MAX_SIZE + 1) none
    Platform.soundcloud "/t/song.mp3" (by decide) (by decide) rfl rfl
  have h2 := c2_oversize_rejected "https://soundcloud.com/a/b"
    (fun _ => Except.ok "/t/song.mp3") (fun _ => true) (fun _ => MAX_SIZE) none
    Platform.soundcloud "/t/song.mp3" (by decide) (by decide) rfl rfl
  exact ⟨⟨(h1.1 (by show MAX_SIZE < MAX_SIZE + 1; omega)).1,
          (h1.1 (by show MAX_SIZE < MAX_SIZE + 1; omega)).2.1⟩,
         (h2.2 (by show MAX_SIZE ≤ MAX_SIZE; omega) rfl).1⟩

/-- Claim C3: for a successful download of an existing file within the size
threshold and a fault-free messaging collaborator, the request reaches
`Done` and the full, ordered interaction list is: the three progress
notices, then exactly one relay sequence — progress-message deletion, one
upload (an audio attachment precisely when the lowercased file extension is
the recognized audio extension `.mp3`, otherwise a video attachment), and
one platform-specific success confirmation naming the file. -/
theorem c3_relay_order (text : String)
    (adapter : Platform → Except String String)
    (fexists : String → Bool) (fsize : String → Nat) (p : Platform) (fp : String)
    (hscheme : (strStarts "http://" (strStrip text) ||
                strStarts "https://" (strStrip text)) = true)
    (hdet : choose_downloader (strStrip text) = some p)
    (had : adapter p = Except.ok fp)
    (hex : fexists fp = true)
    (hsz : fsize fp ≤ MAX_SIZE) :
    (handle_link text adapter fexists fsize none).terminal = Terminal.done ∧
    (handle_link text adapter fexists fsize none).actions =
      [BotAction.progress "Checking link...",
       BotAction.progress (platformProgressText p),
       BotAction.progress "Sending file...",
       BotAction.deleteProgress,
       if recognizedAudioExt (strLower (splitext_ext fp)) then
         BotAction.sendAudio fp
       else BotAction.sendVideo fp,
       BotAction.sendSuccess p (basename fp)] := by
  rw [handle_link_success_shape text adapter fexists fsize none p fp
      hscheme hdet had hex]
  simp [hsz]

/-- Claim C3, witness: an uppercase-extension audio file is relayed as an
audio attachment after the progress deletion and before the success
confirmation; a video file from YouTube is relayed as a video attachment. -/
theorem c3_witness :
    (handle_link "https://soundcloud.com/a/b" (fun _ => Except.ok "/t/song.MP3")
        (fun _ => true) (fun _ => 1000) none).actions =
      [BotAction.progress "Checking link...",
       BotAction.progress "Downloading from SoundCloud...",
       BotAction.progress "Sending file...",
       BotAction.deleteProgress,
       BotAction.sendAudio "/t/song.MP3",
       BotAction.sendSuccess Platform.soundcloud "song.MP3"] ∧
    (handle_link "https://youtu.be/x" (fun _ => Except.ok "/t/v.mp4")
        (fun _ => true) (fun _ => 1000) none).actions =
      [BotAction.progress "Checking link...",
       BotAction.progress "Downloading from YouTube...",
       BotAction.progress "Sending file...",
       BotAction.deleteProgress,
       BotAction.sendVideo "/t/v.mp4",
       BotAction.sendSuccess Platform.youtube "v.mp4"] := by
  have h1 := c3_relay_order "https://soundcloud.com/a/b"
    (fun _ => Except.ok "/t/song.MP3") (fun _ => true) (fun _ => 1000)
    Platform.soundcloud "/t/song.MP3" (by decide) (by decide) rfl rfl (by decide)
  have h2 := c3_relay_order "https://youtu.be/x"
    (fun _ => Except.ok "/t/v.mp4") (fun _ => true) (fun _ => 1000)
    Platform.youtube "/t/v.mp4" (by decide) (by decide) rfl rfl (by decide)
  refine ⟨?_, ?_⟩
  · rw [h1.2]; decide
  · rw [h2.2]; decide

/-- Claim C4: on every exit path of `handle_link` (validation failure,
unsupported source, adapter failure, missing file, oversize failure, send
failure, success) the request's temporary working directory no longer
exists at the terminal state, and at most one such directory is ever
created for the request. -/
theorem c4_tmpdir_released (text : String)
    (adapter : Platform → Except String String)
    (fexists : String → Bool) (fsize : String → Nat)
    (sendFail : Option (Nat × String)) :
    (handle_link text adapter fexists fsize sendFail).tmpdirExists = false ∧
    (handle_link text adapter fexists fsize sendFail).dirsCreated ≤ 1 := by
  refine ⟨?_, ?_⟩ <;>
    · simp only [handle_link]
      repeat' split
      all_goals simp

/-! ### Claim C5 -/

/-- Claim C5: when the primary SoundCloud extraction fails with an error
text mentioning the converter (lowercased text contains "ffmpeg"), the
adapter enters the no-conversion path exactly once and surfaces that
attempt's result as final — its success filename directly, its failure
wrapped into the adapter's error text; when the error does not mention the
converter, no fallback runs and the failure is raised immediately. -/
theorem c5_ffmpeg_fallback_once (err : String) (noconv : Except String String)
    (fexists : String → Bool) (files_in_dir : List String) (dest : String) :
    (strContains "ffmpeg" (strLower err) = true →
      (download_soundcloud (PrimaryOutcome.failed err) noconv fexists
          files_in_dir dest).fallbackCalls = 1 ∧
      (∀ f, noconv = Except.ok f →
        (download_soundcloud (PrimaryOutcome.failed err) noconv fexists
            files_in_dir dest).result = Except.ok f) ∧
      (∀ e, noconv = Except.error e →
        (download_soundcloud (PrimaryOutcome.failed err) noconv fexists
            files_in_dir dest).result =
          Except.error (scErr ("Error downloading without conversion: " ++ e))))
    ∧ (strContains "ffmpeg" (strLower err) = false →
      (download_soundcloud (PrimaryOutcome.failed err) noconv fexists
          files_in_dir dest).fallbackCalls = 0 ∧
      (download_soundcloud (PrimaryOutcome.failed err) noconv fexists
          files_in_dir dest).result =
        Except.error (scErr ("yt-dlp error: " ++ err))) := by
  unfold download_soundcloud download_without_conversion
  constructor
  · intro hc
    cases noconv with
    | ok f => simp [hc]
    | error e => simp [hc]
  · intro hc
    simp [hc]

/-- Claim C5, witness: a converter-mentioning failure (in mixed case) is
followed by exactly one no-conversion attempt whose filename is returned,
while an unrelated failure triggers no fallback. -/
theorem c5_witness :
    ((download_soundcloud (PrimaryOutcome.failed "ERROR: FFmpeg not found")
        (Except.ok "/t/track.m4a") (fun _ => true) [] "/t").fallbackCalls = 1 ∧
     (download_soundcloud (PrimaryOutcome.failed "ERROR: FFmpeg not found")
        (Except.ok "/t/track.m4a") (fun _ => true) [] "/t").result =
       Except.ok "/t/track.m4a") ∧
    ((download_soundcloud (PrimaryOutcome.failed "HTTP Error 404")
        (Except.ok "/t/track.m4a") (fun _ => true) [] "/t").fallbackCalls = 0) := by
  have h1 := c5_ffmpeg_fallback_once "ERROR: FFmpeg not found"
    (Except.ok "/t/track.m4a") (fun _ => true) [] "/t"
  have h2 := c5_ffmpeg_fallback_once "HTTP Error 404"
    (Except.ok "/t/track.m4a") (fun _ => true) [] "/t"
  exact ⟨⟨(h1.1 (by decide)).1, (h1.1 (by decide)).2.1 "/t/track.m4a" rfl⟩,
         (h2.2 (by decide)).1⟩

/-! ### Claim C6 -/

/-- Claim C6, counterexample.  The claim asserts the scan-or-fail property
for every platform adapter.  The TikTok adapter violates it: with a
collaborator predicting `dl/video123.mp4`, a filesystem on which no file
exists, and a destination directory listing `clip.mp4`, `download_tiktok`
returns the predicted (nonexistent) path instead of the directory's first
media file or a failure. -/
theorem c6_counterexample :
    ¬ specScanFallback "dl/video123.mp4" "dl" (fun _ => false) ["clip.mp4"]
        (download_tiktok (Except.ok "dl/video123.mp4")) := by
  intro h
  have h2 := h rfl
  have hm : mediaScan ["clip.mp4"] = some "clip.mp4" := by decide
  simp only [hm, download_tiktok] at h2
  have h3 : "dl/video123.mp4" = pathJoin "dl" "clip.mp4" := by
    injection h2
  exact absurd h3 (by decide)

/-- Claim C6 (amended): only the SoundCloud adapter tolerates the extraction
collaborator renaming the output — when its predicted (nonempty) filename
does not exist it scans the destination directory, returns the first file
with a known media extension joined to the destination, and fails with
"File was not created" only when no such file exists; the TikTok and
YouTube adapters return the collaborator's predicted filename unchanged,
with no existence check and no scan (the orchestrator's own existence check
catches a missing file afterwards). -/
theorem c6_amended_scan (noconv : Except String String) (fexists : String → Bool)
    (files_in_dir : List String) (dest fname : String)
    (hne : fname ≠ "") (hmiss : fexists fname = false) :
    (∀ f, mediaScan files_in_dir = some f →
      (download_soundcloud (PrimaryOutcome.ok (some fname)) noconv fexists
          files_in_dir dest).result = Except.ok (pathJoin dest f))
    ∧ (mediaScan files_in_dir = none →
      (download_soundcloud (PrimaryOutcome.ok (some fname)) noconv fexists
          files_in_dir dest).result =
        Except.error (scErr "File was not created"))
    ∧ (∀ extract : Except String String,
        download_tiktok extract = extract ∧ download_youtube extract = extract) := by
  refine ⟨?_, ?_, fun extract => ⟨rfl, rfl⟩⟩
  · intro f hf
    unfold download_soundcloud
    simp [hne, hmiss, hf]
  · intro hf
    unfold download_soundcloud
    simp [hne, hmiss, hf]

/-- Claim C6, witness: the SoundCloud adapter with a missing predicted file
and a directory listing a text file and an m4a file returns the m4a (the
first media match) joined to the destination directory. -/
theorem c6_witness :
    (download_soundcloud (PrimaryOutcome.ok (some "/t/gone.webm"))
        (Except.ok "unused") (fun _ => false) ["notes.txt", "a.m4a", "b.mp3"]
        "/t").result = Except.ok "/t/a.m4a" := by
  have h := (c6_amended_scan (Except.ok "unused") (fun _ => false)
    ["notes.txt", "a.m4a", "b.mp3"] "/t" "/t/gone.webm" (by decide) rfl).1
    "a.m4a" (by decide)
  rw [h]
  exact congrArg Except.ok (by decide)

/-! ### Claim C7 -/

/-- Claim C7: the claim states that converter resolution returns none only
when the binary is absent from both the tools directory and the system
search path.  The code returns none as soon as the tools directory itself
is missing, skipping the system search entirely: with no tools directory
and ffmpeg available on the system path, resolution yields none (first
conjunct), even though the very same system path is returned when the tools
directory exists but holds no binary (second conjunct), and the
tools-directory binary takes priority when present (third conjunct). -/
theorem c7_tools_dir_gate :
    get_ffmpeg_path "tools" false (fun _ => false) (some "/usr/bin/ffmpeg") =
      none ∧
    get_ffmpeg_path "tools" false (fun p => p == "tools")
        (some "/usr/bin/ffmpeg") = some "/usr/bin/ffmpeg" ∧
    get_ffmpeg_path "tools" false
        (fun p => p == "tools" || p == "tools/ffmpeg") (some "/usr/bin/ffmpeg") =
      some "tools/ffmpeg" := by
  exact ⟨by decide, by decide, by decide⟩

/-! ### Claim C8 -/

/-- Claim C8: the tagging operation always returns a boolean (the embedding
is a total function, mirroring the outer catch-all `except` that converts
every internal failure into `False`); on any internal failure — a
nonexistent file, a failure to obtain the MP3/ID3 object, or a failure of
`audio.save()` — it returns `false`; the returned boolean never depends on
the cover-art fetch outcome, so a network failure or non-200 response is
skipped without failing the call, which still returns `true` whenever
loading and saving succeed. -/
theorem c8_tagging_best_effort (file_exists load_ok save_ok : Bool)
    (info : TrackInfo) (s1 s2 : Option Nat) :
    ((add_metadata_to_mp3 file_exists load_ok save_ok info s1).1 =
      (add_metadata_to_mp3 file_exists load_ok save_ok info s2).1)
    ∧ (file_exists = false ∨ load_ok = false ∨ save_ok = false →
      (add_metadata_to_mp3 file_exists load_ok save_ok info s1).1 = false)
    ∧ (file_exists = true → load_ok = true → save_ok = true →
      (add_metadata_to_mp3 file_exists load_ok save_ok info s1).1 = true) := by
  unfold add_metadata_to_mp3
  cases file_exists <;> cases load_ok <;> cases save_ok <;> simp

/-- Claim C8, witness: tagging an existing, loadable, savable file whose
cover fetch returns HTTP 404 still returns `true` (and no cover is
embedded); a nonexistent file returns `false` even with a succeeding fetch;
and a failing `audio.save()` also returns `false`. -/
theorem c8_witness :
    (add_metadata_to_mp3 true true true
        { title := some "Song", uploader := some "Artist", creator := none,
          genre := some "House", thumbnail := some "http://img" }
        (some 404)).1 = true ∧
    (add_metadata_to_mp3 false true true
        { title := some "Song", uploader := some "Artist", creator := none,
          genre := some "House", thumbnail := some "http://img" }
        (some 200)).1 = false ∧
    (add_metadata_to_mp3 true true false
        { title := some "Song", uploader := some "Artist", creator := none,
          genre := some "House", thumbnail := some "http://img" }
        (some 200)).1 = false := by
  exact ⟨(c8_tagging_best_effort true true true
      { title := some "Song", uploader := some "Artist", creator := none,
        genre := some "House", thumbnail := some "http://img" }
      (some 404) (some 200)).2.2 rfl rfl rfl,
    (c8_tagging_best_effort false true true
      { title := some "Song", uploader := some "Artist", creator := none,
        genre := some "House", thumbnail := some "http://img" }
      (some 200) (some 404)).2.1 (Or.inl rfl),
    (c8_tagging_best_effort true true false
      { title := some "Song", uploader := some "Artist", creator := none,
        genre := some "House", thumbnail := some "http://img" }
      (some 200) (some 404)).2.1 (Or.inr (Or.inr rfl))⟩

/-! ### Claim C9 -/

/-- Claim C9: on a successful tagging run the title frame is written exactly
when the title is nonempty after trimming (and holds the trimmed title); the
artist frame takes the trimmed "uploader" field when that is nonempty,
otherwise the trimmed "creator" field when that is nonempty, otherwise it is
not written; the genre text goes into the album frame exactly when a truthy
genre value is present (an absent key is read as the empty string, so
missing fields are covered). -/
theorem c9_tag_field_rules (info : TrackInfo) (fetchStatus : Option Nat) :
    (((add_metadata_to_mp3 true true true info fetchStatus).2.tit2 ≠ none) ↔
      strStrip (info.title.getD "") ≠ "")
    ∧ (strStrip (info.title.getD "") ≠ "" →
      (add_metadata_to_mp3 true true true info fetchStatus).2.tit2 =
        some (strStrip (info.title.getD "")))
    ∧ (strStrip (info.uploader.getD "") ≠ "" →
      (add_metadata_to_mp3 true true true info fetchStatus).2.tpe1 =
        some (strStrip (info.uploader.getD "")))
    ∧ (strStrip (info.uploader.getD "") = "" →
       strStrip (info.creator.getD "") ≠ "" →
      (add_metadata_to_mp3 true true true info fetchStatus).2.tpe1 =
        some (strStrip (info.creator.getD "")))
    ∧ (strStrip (info.uploader.getD "") = "" →
       strStrip (info.creator.getD "") = "" →
      (add_metadata_to_mp3 true true true info fetchStatus).2.tpe1 = none)
    ∧ (((add_metadata_to_mp3 true true true info fetchStatus).2.talb ≠ none) ↔
      info.genre.getD "" ≠ "")
    ∧ (info.genre.getD "" ≠ "" →
      (add_metadata_to_mp3 true true true info fetchStatus).2.talb =
        some (info.genre.getD "")) := by
  unfold add_metadata_to_mp3
  by_cases ht : strStrip (info.title.getD "") = "" <;>
    by_cases hu : strStrip (info.uploader.getD "") = "" <;>
      by_cases hc : strStrip (info.creator.getD "") = "" <;>
        by_cases hg : info.genre.getD "" = "" <;>
          simp_all

/-- Claim C9, witness: a record with a blank-padded title, an empty uploader
and a nonempty creator gets the trimmed title, the creator as artist and the
genre in the album frame. -/
theorem c9_witness :
    (add_metadata_to_mp3 true true true
        { title := some "  My Song  ", uploader := some "   ",
          creator := some "DJ X", genre := some "House", thumbnail := none }
        none).2.tit2 = some "My Song" ∧
    (add_metadata_to_mp3 true true true
        { title := some "  My Song  ", uploader := some "   ",
          creator := some "DJ X", genre := some "House", thumbnail := none }
        none).2.tpe1 = some "DJ X" ∧
    (add_metadata_to_mp3 true true true
        { title := some "  My Song  ", uploader := some "   ",
          creator := some "DJ X", genre := some "House", thumbnail := none }
        none).2.talb = some "House" := by
  have h := c9_tag_field_rules
    { title := some "  My Song  ", uploader := some "   ",
      creator := some "DJ X", genre := some "House", thumbnail := none } none
  refine ⟨?_, ?_, ?_⟩
  · rw [h.2.1 (by decide)]; exact congrArg some (by decide)
  · rw [h.2.2.2.1 (by decide) (by decide)]; exact congrArg some (by decide)
  · rw [h.2.2.2.2.2.2 (by decide)]
    exact congrArg some (by decide)

end DownloaderBot
